import Mathlib

/-!
Shallow embedding of the servo motor device class
(src/motors/servo_motor_class.c).

The C file stores the pulse configuration in `unsigned` fields, the
position in an `int` field, and scales percentages to pulse widths with
`servo_motor_class_scale`, whose parameters are `unsigned` while the call
sites pass signed values such as `-100`.  The embedding therefore models
the C implicit conversions explicitly: `toU32` encodes a C `int` as its
unsigned 32-bit representation, `usub32` is unsigned 32-bit subtraction,
and `ofU32` reads the low 32 bits back as a signed `int`.  The local
accumulator of `servo_motor_class_scale` is declared `long`; the kernels
this repository targets are 32-bit ARM platforms (ILP32), where `long`
is 32 bits wide and cannot represent every `unsigned int` value, so by
the usual arithmetic conversions each compound assignment in that
function (`*=`, `/=`, `+=` with an `unsigned` right-hand side) is
carried out in unsigned 32-bit arithmetic, wrapping modulo 2^32 at
every step; in particular the product wraps before the (unsigned)
division.  The model keeps that modulus at every step, and the final
`return scaled` reinterprets the 32-bit pattern as a signed `int`
(`ofU32`).

The hardware driver (`motor->ops`) is external: a driver call is modelled
by an explicit result value (or result function), and each operation also
returns the list of pulse values it handed to the driver method
`set_position`, so that theorems can state which driver calls were made.
Attribute plumbing (sscanf/sprintf, sysfs string matching) is out of
scope per the spec; store operations receive the already-parsed value and
return the C return value (`count` on success, a negative errno on
failure), the new state, and the driver-call trace.
-/

/-- `2^32`, the modulus of the unsigned arithmetic in the C file. -/
def U32 : Nat := 4294967296

/-- Encoding of a C `int` value as its `unsigned` 32-bit representation
(the conversion applied when an `int` argument is passed for an
`unsigned` parameter). -/
def toU32 (n : Int) : Nat := (n % (U32 : Int)).toNat

/-- Reading an unsigned 32-bit pattern back as a signed C `int` (the
value of the 32-bit `long` accumulator at the `return` statement of
`servo_motor_class_scale`). -/
def ofU32 (n : Nat) : Int :=
  if n % U32 < 2147483648 then (n % U32 : Int) else (n % U32 : Int) - (U32 : Int)

/-- Unsigned 32-bit subtraction `a - b` on values already in unsigned
representation. -/
def usub32 (a b : Nat) : Nat := (a % U32 + U32 - b % U32) % U32

/-- The errno value for invalid argument; `-EINVAL` is returned by the
store operations on out-of-range input. -/
def EINVAL : Int := 22

/-- enum servo_motor_polarity. -/
inductive servo_motor_polarity
  | normal
  | inverted
deriving DecidableEq

/-- enum servo_motor_command. -/
inductive servo_motor_command
  | run
  | float
deriving DecidableEq

/-- The mutable state of struct servo_motor_device that the control logic
reads and writes: the three pulse bounds (`unsigned` fields), the
command, the polarity and the stored position percentage (`int`). -/
structure servo_motor_device where
  min_pulse_ms : Nat
  mid_pulse_ms : Nat
  max_pulse_ms : Nat
  command : servo_motor_command
  polarity : servo_motor_polarity
  position : Int
deriving DecidableEq

/-- A call made to the driver method `ops.set_position`, recording the
pulse argument. -/
inductive DriverCall
  | setPos (pulse : Int)
deriving DecidableEq

/-- servo_motor_class_scale.  Parameters are `unsigned` values (the call
sites pass `int` expressions through `toU32`).  On the 32-bit targets of
this repository the `long` accumulator is 32 bits wide, so every
compound assignment with an `unsigned` operand is unsigned 32-bit
arithmetic: the multiplication wraps modulo 2^32 before the division,
the division is the unsigned one, and the addition wraps again; the
`return` reinterprets the final 32-bit pattern as `int` via `ofU32`. -/
def servo_motor_class_scale (in_min in_max out_min out_max value : Nat) : Int :=
  let s1 : Nat := usub32 value in_min
  let s2 : Nat := s1 * usub32 out_max out_min % U32
  let s3 : Nat := s2 / usub32 in_max in_min
  let s4 : Nat := (s3 + out_min % U32) % U32
  ofU32 s4

/-- servo_motor_class_set_position.  Stores the new polarity and
position, then, only when the current command is run, scales the
(possibly negated) percentage to a pulse width and calls the driver.
Returns the C return value, the new state, and the driver calls made. -/
def servo_motor_class_set_position (ops_set_position : Int → Int)
    (motor : servo_motor_device) (new_position : Int)
    (new_polarity : servo_motor_polarity) :
    Int × servo_motor_device × List DriverCall :=
  let motor := { motor with polarity := new_polarity, position := new_position }
  if motor.command = .run then
    let new_position := if new_polarity = .inverted then -new_position else new_position
    let scaled_position :=
      if new_position > 0 then
        servo_motor_class_scale (toU32 0) (toU32 100)
          motor.mid_pulse_ms motor.max_pulse_ms (toU32 new_position)
      else
        servo_motor_class_scale (toU32 (-100)) (toU32 0)
          motor.min_pulse_ms motor.mid_pulse_ms (toU32 new_position)
    (ops_set_position scaled_position, motor, [.setPos scaled_position])
  else
    (0, motor, [])

/-- min_pulse_ms_store, after parsing: validates the unsigned value
against [300, 700], stores it on success and returns `count`; returns
`-EINVAL` otherwise.  The driver is never invoked. -/
def min_pulse_ms_store (count : Int) (motor : servo_motor_device) (value : Nat) :
    Int × servo_motor_device × List DriverCall :=
  if value > 700 ∨ value < 300 then (-EINVAL, motor, [])
  else (count, { motor with min_pulse_ms := value }, [])

/-- mid_pulse_ms_store, after parsing: validates against [1300, 1700]. -/
def mid_pulse_ms_store (count : Int) (motor : servo_motor_device) (value : Nat) :
    Int × servo_motor_device × List DriverCall :=
  if value > 1700 ∨ value < 1300 then (-EINVAL, motor, [])
  else (count, { motor with mid_pulse_ms := value }, [])

/-- max_pulse_ms_store, after parsing: validates against [2300, 2700]. -/
def max_pulse_ms_store (count : Int) (motor : servo_motor_device) (value : Nat) :
    Int × servo_motor_device × List DriverCall :=
  if value > 2700 ∨ value < 2300 then (-EINVAL, motor, [])
  else (count, { motor with max_pulse_ms := value }, [])

/-- command_store, after the string has matched a valid command.  A
matching command equal to the current one is a no-op returning `count`.
Otherwise the command field is updated first; a change to run re-applies
the stored position through servo_motor_class_set_position, a change to
float calls the driver with pulse 0.  A nonzero driver result is
returned, otherwise `count`. -/
def command_store (count : Int) (ops_set_position : Int → Int)
    (motor : servo_motor_device) (cmd : servo_motor_command) :
    Int × servo_motor_device × List DriverCall :=
  if motor.command = cmd then (count, motor, [])
  else
    let motor := { motor with command := cmd }
    match cmd with
    | .run =>
      let r := servo_motor_class_set_position ops_set_position motor
        motor.position motor.polarity
      (if r.1 ≠ 0 then r.1 else count, r.2.1, r.2.2)
    | .float =>
      let err := ops_set_position 0
      (if err ≠ 0 then err else count, motor, [.setPos 0])

/-- position_show: the value reported by a read of the position
attribute, given the result of the driver call `ops.get_position`.  A
negative driver result is propagated; a zero raw reading falls back to
the stored position; otherwise the raw pulse is scaled back to a
percentage, using the lower range below mid_pulse_ms and the upper range
from mid_pulse_ms up.  The C comparison `ret < motor->mid_pulse_ms`
converts the `int` to `unsigned`, modelled by `toU32`. -/
def position_show (get_position_ret : Int) (motor : servo_motor_device) : Int :=
  let ret := get_position_ret
  if ret < 0 then ret
  else if ret = 0 then motor.position
  else if toU32 ret < motor.mid_pulse_ms then
    servo_motor_class_scale motor.min_pulse_ms motor.mid_pulse_ms
      (toU32 (-100)) (toU32 0) (toU32 ret)
  else
    servo_motor_class_scale motor.mid_pulse_ms motor.max_pulse_ms
      (toU32 0) (toU32 100) (toU32 ret)

/-- position_store, after parsing: validates the value against
[-100, 100] (else `-EINVAL`), is a no-op when the value equals the
stored position, and otherwise delegates to
servo_motor_class_set_position, returning a nonzero driver result or
`count`. -/
def position_store (count : Int) (ops_set_position : Int → Int)
    (motor : servo_motor_device) (value : Int) :
    Int × servo_motor_device × List DriverCall :=
  if value > 100 ∨ value < -100 then (-EINVAL, motor, [])
  else if motor.position ≠ value then
    let r := servo_motor_class_set_position ops_set_position motor value motor.polarity
    (if r.1 ≠ 0 then r.1 else count, r.2.1, r.2.2)
  else (count, motor, [])

/-! Helper lemmas about the unsigned 32-bit encoding. -/

theorem toU32_lt_U32 (x : Int) : toU32 x < U32 := by
  unfold toU32 U32; omega

theorem usub32_toU32_eq (x y : Int) (hx1 : -(2^31) ≤ x) (hx2 : x < 2^31)
    (hy1 : -(2^31) ≤ y) (hy2 : y < 2^31) (hxy : y ≤ x) :
    usub32 (toU32 x) (toU32 y) = (x - y).toNat := by
  unfold usub32 toU32 U32; omega

theorem tdiv_natCast (m n : Nat) : (m : Int).tdiv (n : Int) = ((m / n : Nat) : Int) := rfl

theorem ofU32_add_toU32 (q : Nat) (c : Int) (hc : -(2^31) ≤ c)
    (hqc : (q : Int) + c < 2^31) : ofU32 ((q + toU32 c) % U32) = q + c := by
  unfold ofU32 toU32 U32
  split <;> omega

/-- Claim C3 is false as stated: at in_min = 0, in_max = 131072,
out_min = 0, out_max = 65536, value = 65536 every hypothesis of the
claim holds, the truncating formula gives 65536 * 65536 / 131072 = 32768,
but the 32-bit accumulator wraps the product 2^32 to 0 and the function
returns 0. -/
theorem scale_product_wrap :
    ((0:Int) < 131072 ∧ (0:Int) ≤ 65536 ∧ (65536:Int) ≤ 131072 ∧
      (0:Int) ≤ (65536:Int) ∧ ((131072:Int) < 2^31)) ∧
    servo_motor_class_scale (toU32 0) (toU32 131072) (toU32 0) (toU32 65536)
      (toU32 65536) = 0 ∧
    (((65536:Int) - 0) * ((65536:Int) - 0)).tdiv ((131072:Int) - 0) + 0 = 32768 ∧
    ((0:Int) ≠ (32768:Int)) := by
  decide

/-- Claim C3 amended: for in_max > in_min, in_min ≤ value ≤ in_max and
out_min ≤ out_max (all representable as 32-bit signed integers), and
provided the product (value - in_min) * (out_max - out_min) stays below
2^32 so the 32-bit accumulator does not wrap, servo_motor_class_scale
computes
(value - in_min) * (out_max - out_min) / (in_max - in_min) + out_min
with the division truncating toward zero; in particular
scale(0,100,1500,2400,0) = 1500, scale(0,100,1500,2400,100) = 2400 and
scale(-100,0,600,1500,-100) = 600. -/
theorem servo_scale_formula (a b c d v : Int)
    (ha : -(2^31) ≤ a) (hb : b < 2^31) (hc : -(2^31) ≤ c) (hd : d < 2^31)
    (hab : a < b) (hav : a ≤ v) (hvb : v ≤ b) (hcd : c ≤ d)
    (hnw : (v - a) * (d - c) < 4294967296) :
    (servo_motor_class_scale (toU32 a) (toU32 b) (toU32 c) (toU32 d) (toU32 v)
      = ((v - a) * (d - c)).tdiv (b - a) + c) ∧
    servo_motor_class_scale (toU32 0) (toU32 100) (toU32 1500) (toU32 2400) (toU32 0)
      = 1500 ∧
    servo_motor_class_scale (toU32 0) (toU32 100) (toU32 1500) (toU32 2400) (toU32 100)
      = 2400 ∧
    servo_motor_class_scale (toU32 (-100)) (toU32 0) (toU32 600) (toU32 1500) (toU32 (-100))
      = 600 := by
  refine ⟨?_, by decide, by decide, by decide⟩
  have hva : usub32 (toU32 v) (toU32 a) = (v - a).toNat :=
    usub32_toU32_eq v a (by omega) (by omega) (by omega) (by omega) hav
  have hdc : usub32 (toU32 d) (toU32 c) = (d - c).toNat :=
    usub32_toU32_eq d c (by omega) (by omega) (by omega) (by omega) hcd
  have hba : usub32 (toU32 b) (toU32 a) = (b - a).toNat :=
    usub32_toU32_eq b a (by omega) (by omega) (by omega) (by omega) (by omega)
  have hcu : toU32 c % U32 = toU32 c := Nat.mod_eq_of_lt (toU32_lt_U32 c)
  have hcast : (((v - a).toNat * (d - c).toNat : Nat) : Int) = (v - a) * (d - c) := by
    rw [Nat.cast_mul,
      Int.toNat_of_nonneg (by omega : (0:Int) ≤ v - a),
      Int.toNat_of_nonneg (by omega : (0:Int) ≤ d - c)]
  have hp : (v - a).toNat * (d - c).toNat < U32 := by
    unfold U32; omega
  have hmod : (v - a).toNat * (d - c).toNat % U32 = (v - a).toNat * (d - c).toNat :=
    Nat.mod_eq_of_lt hp
  simp only [servo_motor_class_scale, hva, hdc, hba, hcu, hmod]
  have hq : ((((v - a).toNat * (d - c).toNat) / (b - a).toNat : Nat) : Int)
      = ((v - a) * (d - c)).tdiv (b - a) := by
    rw [← tdiv_natCast, Nat.cast_mul,
      Int.toNat_of_nonneg (by omega : (0:Int) ≤ v - a),
      Int.toNat_of_nonneg (by omega : (0:Int) ≤ d - c),
      Int.toNat_of_nonneg (by omega : (0:Int) ≤ b - a)]
  have hqle : ((v - a).toNat * (d - c).toNat) / (b - a).toNat ≤ (d - c).toNat := by
    calc ((v - a).toNat * (d - c).toNat) / (b - a).toNat
        ≤ ((b - a).toNat * (d - c).toNat) / (b - a).toNat :=
          Nat.div_le_div_right (Nat.mul_le_mul_right _ (by omega))
      _ = (d - c).toNat := Nat.mul_div_cancel_left _ (by omega)
  have hqc : ((((v - a).toNat * (d - c).toNat) / (b - a).toNat : Nat) : Int) + c < 2^31 := by
    omega
  rw [ofU32_add_toU32 _ c hc hqc, hq]

/-- A closed instance of the amended C3 scale formula at
scale(0,100,1500,2400,50), where the product 50 * 900 does not wrap. -/
theorem servo_scale_formula_witness :
    ((-(2^31) ≤ (0:Int)) ∧ ((100:Int) < 2^31) ∧ (-(2^31) ≤ (1500:Int)) ∧
      ((2400:Int) < 2^31) ∧ ((0:Int) < 100) ∧ ((0:Int) ≤ 50) ∧
      ((50:Int) ≤ 100) ∧ ((1500:Int) ≤ 2400) ∧
      (((50:Int) - 0) * ((2400:Int) - 1500) < 4294967296)) ∧
    ((servo_motor_class_scale (toU32 0) (toU32 100) (toU32 1500) (toU32 2400) (toU32 50)
      = (((50:Int) - 0) * ((2400:Int) - 1500)).tdiv ((100:Int) - 0) + 1500) ∧
    servo_motor_class_scale (toU32 0) (toU32 100) (toU32 1500) (toU32 2400) (toU32 0)
      = 1500 ∧
    servo_motor_class_scale (toU32 0) (toU32 100) (toU32 1500) (toU32 2400) (toU32 100)
      = 2400 ∧
    servo_motor_class_scale (toU32 (-100)) (toU32 0) (toU32 600) (toU32 1500) (toU32 (-100))
      = 600) :=
  ⟨by decide,
   servo_scale_formula 0 100 1500 2400 50 (by decide) (by decide) (by decide)
     (by decide) (by decide) (by decide) (by decide) (by decide) (by decide)⟩

/-- Claim C1: for every stored pulse configuration and requested
percentage, with the command being run, servo_motor_class_set_position
hands the driver the pulse scale(0,100,mid_pulse,max_pulse,p) when the
(possibly negated) percentage p is positive and
scale(-100,0,min_pulse,mid_pulse,p) otherwise; in particular the
float-to-run transition with stored position 50 and the default pulse
configuration calls the driver with pulse 1950. -/
theorem set_position_scales_percentage (ops : Int → Int) (m : servo_motor_device)
    (v : Int) (pol : servo_motor_polarity) (h : m.command = .run) :
    ((servo_motor_class_set_position ops m v pol).2.2 =
      [DriverCall.setPos
        (if (if pol = .inverted then -v else v) > 0 then
          servo_motor_class_scale (toU32 0) (toU32 100)
            m.mid_pulse_ms m.max_pulse_ms (toU32 (if pol = .inverted then -v else v))
        else
          servo_motor_class_scale (toU32 (-100)) (toU32 0)
            m.min_pulse_ms m.mid_pulse_ms (toU32 (if pol = .inverted then -v else v)))]) ∧
    (∀ (count : Int) (ops2 : Int → Int),
      (command_store count ops2 ⟨600, 1500, 2400, .float, .normal, 50⟩ .run).2.2 =
        [DriverCall.setPos 1950]) := by
  constructor
  · simp [servo_motor_class_set_position, h]
  · intro count ops2
    rfl

/-- A closed instance of C1 with a running motor at default
configuration, normal polarity, percentage 75. -/
theorem set_position_scales_percentage_witness :
    ((⟨600, 1500, 2400, .run, .normal, 0⟩ : servo_motor_device).command =
        servo_motor_command.run) ∧
    ((servo_motor_class_set_position (fun _ => 0)
        ⟨600, 1500, 2400, .run, .normal, 0⟩ 75 .normal).2.2 =
      [DriverCall.setPos
        (if (if servo_motor_polarity.normal = .inverted then -(75:Int) else 75) > 0 then
          servo_motor_class_scale (toU32 0) (toU32 100) 1500 2400
            (toU32 (if servo_motor_polarity.normal = .inverted then -(75:Int) else 75))
        else
          servo_motor_class_scale (toU32 (-100)) (toU32 0) 600 1500
            (toU32 (if servo_motor_polarity.normal = .inverted then -(75:Int) else 75)))]) ∧
    (∀ (count : Int) (ops2 : Int → Int),
      (command_store count ops2 ⟨600, 1500, 2400, .float, .normal, 50⟩ .run).2.2 =
        [DriverCall.setPos 1950]) :=
  ⟨rfl,
   (set_position_scales_percentage (fun _ => 0)
      ⟨600, 1500, 2400, .run, .normal, 0⟩ 75 .normal rfl).1,
   (set_position_scales_percentage (fun _ => 0)
      ⟨600, 1500, 2400, .run, .normal, 0⟩ 75 .normal rfl).2⟩

/-- Claim C2: reading the position reports the driver error as-is when
the raw reading is negative, the stored position when the raw reading is
zero, scale(min_pulse,mid_pulse,-100,0,raw) when 0 < raw < mid_pulse,
and scale(mid_pulse,max_pulse,0,100,raw) when raw ≥ mid_pulse. -/
theorem position_show_cases (m : servo_motor_device) (raw : Int)
    (hraw : raw < 2^31) :
    (raw < 0 → position_show raw m = raw) ∧
    (raw = 0 → position_show raw m = m.position) ∧
    (0 < raw → raw < (m.mid_pulse_ms : Int) →
      position_show raw m =
        servo_motor_class_scale m.min_pulse_ms m.mid_pulse_ms
          (toU32 (-100)) (toU32 0) (toU32 raw)) ∧
    (0 < raw → (m.mid_pulse_ms : Int) ≤ raw →
      position_show raw m =
        servo_motor_class_scale m.mid_pulse_ms m.max_pulse_ms
          (toU32 0) (toU32 100) (toU32 raw)) := by
  refine ⟨fun h1 => ?_, fun h1 => ?_, fun h1 h2 => ?_, fun h1 h2 => ?_⟩
  · simp [position_show, h1]
  · subst h1; simp [position_show]
  · have hn1 : ¬ raw < 0 := by omega
    have hn2 : ¬ raw = 0 := by omega
    have hlt : toU32 raw < m.mid_pulse_ms := by unfold toU32 U32; omega
    simp [position_show, hn1, hn2, hlt]
  · have hn1 : ¬ raw < 0 := by omega
    have hn2 : ¬ raw = 0 := by omega
    have hge : ¬ toU32 raw < m.mid_pulse_ms := by unfold toU32 U32; omega
    simp [position_show, hn1, hn2, hge]

/-- A closed instance of C2: at the default configuration a raw reading
of 1000 lies strictly between zero and mid_pulse and is reported through
the lower scaling range. -/
theorem position_show_cases_witness :
    ((1000:Int) < 2^31 ∧ (0:Int) < 1000 ∧
      (1000:Int) < (((⟨600, 1500, 2400, .run, .normal, 0⟩ :
        servo_motor_device).mid_pulse_ms : Nat) : Int)) ∧
    position_show 1000 ⟨600, 1500, 2400, .run, .normal, 0⟩ =
      servo_motor_class_scale 600 1500 (toU32 (-100)) (toU32 0) (toU32 1000) :=
  ⟨by decide,
   (position_show_cases ⟨600, 1500, 2400, .run, .normal, 0⟩ 1000
      (by decide)).2.2.1 (by decide) (by decide)⟩

/-- The motor state used for the C4 counterexample: default pulse
configuration, running, inverted polarity, stored position 40. -/
def motor_c4 : servo_motor_device := ⟨600, 1500, 2400, .run, .inverted, 40⟩

/-- Claim C4 is false as stated: with inverted polarity and position 40
at the default configuration, the pulse handed to the driver is
scale(-100,0,600,1500,-40) = 1140, not 900. -/
theorem inverted_40_not_900 :
    (servo_motor_class_set_position (fun _ => 0) motor_c4 40 .inverted).2.2 =
      [DriverCall.setPos 1140] ∧
    servo_motor_class_scale (toU32 (-100)) (toU32 0) 600 1500 (toU32 (-40)) = 1140 ∧
    (1140 : Int) ≠ 900 := by
  decide

/-- Claim C4 amended: with inverted polarity, stored position 40 and the
default pulse configuration, the percentage is negated to -40 and the
driver receives the pulse scale(-100,0,600,1500,-40) = 1140. -/
theorem inverted_40_pulse :
    (servo_motor_class_set_position (fun _ => 0) motor_c4 40 .inverted).2.2 =
      [DriverCall.setPos
        (servo_motor_class_scale (toU32 (-100)) (toU32 0) 600 1500 (toU32 (-40)))] ∧
    servo_motor_class_scale (toU32 (-100)) (toU32 0) 600 1500 (toU32 (-40)) = 1140 := by
  decide

/-- The motor state used for the C5 counterexample: default pulse
configuration, running, normal polarity, stored position 10. -/
def motor_c5 : servo_motor_device := ⟨600, 1500, 2400, .run, .normal, 10⟩

/-- Claim C5 is false as stated: writing position 20 to a running motor
whose driver call fails with -5 returns the error, yet the stored
position has already been changed from 10 to 20. -/
theorem position_store_failure_mutates :
    (position_store 1 (fun _ => -5) motor_c5 20).1 = -5 ∧
    (position_store 1 (fun _ => -5) motor_c5 20).2.1.position = 20 ∧
    ((20 : Int) ≠ 10) := by
  decide

/-- Claim C5 amended: set_position stores the new position before the
driver call; when the driver call fails with a nonzero result, that
result is returned but the stored position already holds the requested
value (no rollback). -/
theorem position_store_updates_before_driver (count e : Int)
    (m : servo_motor_device) (v : Int) (hv1 : -100 ≤ v) (hv2 : v ≤ 100)
    (hne : m.position ≠ v) (hrun : m.command = .run) (he : e ≠ 0) :
    (position_store count (fun _ => e) m v).1 = e ∧
    (position_store count (fun _ => e) m v).2.1.position = v := by
  have hc : ¬ (v > 100 ∨ v < -100) := by omega
  simp [position_store, hc, hne, servo_motor_class_set_position, hrun, he]

/-- A closed instance of the amended C5 at position 20 with a driver
failing with -5. -/
theorem position_store_updates_before_driver_witness :
    ((-100 ≤ (20:Int)) ∧ ((20:Int) ≤ 100) ∧ motor_c5.position ≠ (20:Int) ∧
      motor_c5.command = servo_motor_command.run ∧ ((-5:Int) ≠ 0)) ∧
    ((position_store 1 (fun _ => -5) motor_c5 20).1 = -5 ∧
     (position_store 1 (fun _ => -5) motor_c5 20).2.1.position = 20) :=
  ⟨by decide,
   position_store_updates_before_driver 1 (-5) motor_c5 20 (by decide)
     (by decide) (by decide) rfl (by decide)⟩

/-- Claim C6: a requested position outside [-100,100] fails with
-EINVAL, leaves the whole state unchanged and performs no driver call;
a requested position equal to the stored one (itself in range) succeeds
as a no-op without a driver call. -/
theorem position_store_validation (count : Int) (ops : Int → Int)
    (m : servo_motor_device) (v : Int) :
    ((v > 100 ∨ v < -100) → position_store count ops m v = (-EINVAL, m, [])) ∧
    (-100 ≤ v → v ≤ 100 → v = m.position →
      position_store count ops m v = (count, m, [])) := by
  constructor
  · intro h
    simp [position_store, h]
  · intro h1 h2 h3
    subst h3
    have hc : ¬ (m.position > 100 ∨ m.position < -100) := by omega
    simp [position_store, hc]

/-- A closed instance of C6: positions 150 and -101 are rejected with
-EINVAL without touching the state, and re-writing the stored position
10 is a successful no-op. -/
theorem position_store_validation_witness :
    (((150:Int) > 100 ∨ (150:Int) < -100) ∧
      ((-101:Int) > 100 ∨ (-101:Int) < -100) ∧
      (-100 ≤ (10:Int)) ∧ ((10:Int) ≤ 100) ∧ ((10:Int) = motor_c5.position)) ∧
    (position_store 1 (fun _ => 0) motor_c5 150 = (-EINVAL, motor_c5, []) ∧
     position_store 1 (fun _ => 0) motor_c5 (-101) = (-EINVAL, motor_c5, []) ∧
     position_store 1 (fun _ => 0) motor_c5 10 = (1, motor_c5, [])) :=
  ⟨by decide,
   (position_store_validation 1 (fun _ => 0) motor_c5 150).1 (by decide),
   (position_store_validation 1 (fun _ => 0) motor_c5 (-101)).1 (by decide),
   (position_store_validation 1 (fun _ => 0) motor_c5 10).2 (by decide)
     (by decide) (by decide)⟩

/-- Claim C7: the run-to-float command transition calls the driver with
pulse 0 (the driver neutral value, not a scaled pulse) and leaves the
stored position percentage unaltered. -/
theorem command_store_run_to_float (count : Int) (ops : Int → Int)
    (m : servo_motor_device) (h : m.command = .run) :
    (command_store count ops m .float).2.2 = [DriverCall.setPos 0] ∧
    (command_store count ops m .float).2.1.position = m.position := by
  simp [command_store, h]

/-- A closed instance of C7 on a running motor with stored position 33. -/
theorem command_store_run_to_float_witness :
    ((⟨600, 1500, 2400, .run, .normal, 33⟩ : servo_motor_device).command =
        servo_motor_command.run) ∧
    ((command_store 1 (fun _ => 0)
        ⟨600, 1500, 2400, .run, .normal, 33⟩ .float).2.2 =
      [DriverCall.setPos 0] ∧
     (command_store 1 (fun _ => 0)
        ⟨600, 1500, 2400, .run, .normal, 33⟩ .float).2.1.position =
      (⟨600, 1500, 2400, .run, .normal, 33⟩ : servo_motor_device).position) :=
  ⟨rfl,
   command_store_run_to_float 1 (fun _ => 0)
     ⟨600, 1500, 2400, .run, .normal, 33⟩ rfl⟩

/-- Claim C8: while the command is float, servo_motor_class_set_position
records the requested percentage and polarity, performs no driver call
and reports success (0). -/
theorem set_position_float_records (ops : Int → Int) (m : servo_motor_device)
    (v : Int) (pol : servo_motor_polarity) (_hv1 : -100 ≤ v) (_hv2 : v ≤ 100)
    (h : m.command = .float) :
    servo_motor_class_set_position ops m v pol =
      (0, { m with polarity := pol, position := v }, []) := by
  simp [servo_motor_class_set_position, h]

/-- A closed instance of C8: pre-staging position -60 with inverted
polarity on a floating motor succeeds without any driver call. -/
theorem set_position_float_records_witness :
    ((-100 ≤ (-60:Int)) ∧ ((-60:Int) ≤ 100) ∧
      (⟨600, 1500, 2400, .float, .normal, 0⟩ : servo_motor_device).command =
        servo_motor_command.float) ∧
    servo_motor_class_set_position (fun _ => 0)
        ⟨600, 1500, 2400, .float, .normal, 0⟩ (-60) .inverted =
      (0, ⟨600, 1500, 2400, .float, .inverted, -60⟩, []) :=
  ⟨by decide,
   set_position_float_records (fun _ => 0)
     ⟨600, 1500, 2400, .float, .normal, 0⟩ (-60) .inverted (by decide)
     (by decide) rfl⟩

/-- Claim C9: the pulse-bound writes 250 (min), 1800 (mid) and 2800
(max) each fail with -EINVAL leaving the state unchanged, and every
in-range pulse-bound write stores exactly that field, changes nothing
else and performs no driver call. -/
theorem pulse_bound_validation (count : Int) (m : servo_motor_device) :
    min_pulse_ms_store count m 250 = (-EINVAL, m, []) ∧
    mid_pulse_ms_store count m 1800 = (-EINVAL, m, []) ∧
    max_pulse_ms_store count m 2800 = (-EINVAL, m, []) ∧
    (∀ v : Nat, 300 ≤ v → v ≤ 700 →
      min_pulse_ms_store count m v = (count, { m with min_pulse_ms := v }, [])) ∧
    (∀ v : Nat, 1300 ≤ v → v ≤ 1700 →
      mid_pulse_ms_store count m v = (count, { m with mid_pulse_ms := v }, [])) ∧
    (∀ v : Nat, 2300 ≤ v → v ≤ 2700 →
      max_pulse_ms_store count m v = (count, { m with max_pulse_ms := v }, [])) := by
  refine ⟨by simp [min_pulse_ms_store], by simp [mid_pulse_ms_store],
    by simp [max_pulse_ms_store], fun v h1 h2 => ?_, fun v h1 h2 => ?_,
    fun v h1 h2 => ?_⟩
  · simp only [min_pulse_ms_store]
    rw [if_neg (by omega)]
  · simp only [mid_pulse_ms_store]
    rw [if_neg (by omega)]
  · simp only [max_pulse_ms_store]
    rw [if_neg (by omega)]

/-- A closed instance of C9 on a default-configured motor: the three
out-of-bound writes are rejected and an in-range min_pulse_ms write of
650 stores exactly that field. -/
theorem pulse_bound_validation_witness :
    ((300 ≤ 650) ∧ (650 ≤ 700)) ∧
    (min_pulse_ms_store 1 ⟨600, 1500, 2400, .run, .normal, 0⟩ 250 =
      (-EINVAL, ⟨600, 1500, 2400, .run, .normal, 0⟩, []) ∧
     mid_pulse_ms_store 1 ⟨600, 1500, 2400, .run, .normal, 0⟩ 1800 =
      (-EINVAL, ⟨600, 1500, 2400, .run, .normal, 0⟩, []) ∧
     max_pulse_ms_store 1 ⟨600, 1500, 2400, .run, .normal, 0⟩ 2800 =
      (-EINVAL, ⟨600, 1500, 2400, .run, .normal, 0⟩, []) ∧
     min_pulse_ms_store 1 ⟨600, 1500, 2400, .run, .normal, 0⟩ 650 =
      (1, ⟨650, 1500, 2400, .run, .normal, 0⟩, [])) :=
  ⟨by decide,
   (pulse_bound_validation 1 ⟨600, 1500, 2400, .run, .normal, 0⟩).1,
   (pulse_bound_validation 1 ⟨600, 1500, 2400, .run, .normal, 0⟩).2.1,
   (pulse_bound_validation 1 ⟨600, 1500, 2400, .run, .normal, 0⟩).2.2.1,
   (pulse_bound_validation 1 ⟨600, 1500, 2400, .run, .normal, 0⟩).2.2.2.1
     650 (by decide) (by decide)⟩

/-- The motor state used for the C10 theorems: default pulse
configuration, running, normal polarity, stored position 0. -/
def motor_c10 : servo_motor_device := ⟨600, 1500, 2400, .run, .normal, 0⟩

/-- Claim C10 is false as stated: at the default configuration the raw
reading 2401 is strictly greater than max_pulse = 2400, yet the
position read reports exactly 100, which is not strictly greater
than 100 (the truncating division absorbs the excess). -/
theorem position_show_raw_2401 :
    ((motor_c10.max_pulse_ms : Int) < 2401) ∧
    position_show 2401 motor_c10 = 100 ∧ ¬ ((100:Int) > 100) := by
  decide

/-- Claim C10 amended: the position read is not clamped to [-100,100]:
with mid_pulse < max_pulse (max_pulse an unsigned 32-bit field value),
a raw reading representable as a C int (below 2^31) of at least
max_pulse + (max_pulse - mid_pulse)/100 + 1, and with
(raw - mid_pulse) * 100 below 2^31 so the 32-bit accumulator does not
wrap, the reported value is strictly greater than 100. -/
theorem position_show_unclamped (m : servo_motor_device) (raw : Int)
    (hmm : m.mid_pulse_ms < m.max_pulse_ms)
    (hmaxU : m.max_pulse_ms < 2^32)
    (hraw2 : raw < 2^31)
    (hraw1 : ((m.max_pulse_ms + (m.max_pulse_ms - m.mid_pulse_ms) / 100 + 1 : Nat) : Int)
      ≤ raw)
    (hnw : (raw - (m.mid_pulse_ms : Int)) * 100 < 2^31) :
    100 < position_show raw m := by
  have hn1 : ¬ raw < 0 := by omega
  have hn2 : ¬ raw = 0 := by omega
  have hge : ¬ toU32 raw < m.mid_pulse_ms := by unfold toU32 U32; omega
  have hu1 : usub32 (toU32 raw) m.mid_pulse_ms = raw.toNat - m.mid_pulse_ms := by
    unfold usub32 toU32 U32; omega
  have hu2 : usub32 (toU32 100) (toU32 0) = 100 := by decide
  have hu3 : usub32 m.max_pulse_ms m.mid_pulse_ms =
      m.max_pulse_ms - m.mid_pulse_ms := by
    unfold usub32 U32; omega
  have hz : toU32 0 % U32 = 0 := by decide
  have hs2 : (raw.toNat - m.mid_pulse_ms) * 100 % U32 =
      (raw.toNat - m.mid_pulse_ms) * 100 := by
    refine Nat.mod_eq_of_lt ?_
    unfold U32; omega
  simp only [position_show, if_neg hn1, if_neg hn2, if_neg hge,
    servo_motor_class_scale, hu1, hu2, hu3, hz, hs2, Nat.add_zero]
  have hq1 : 101 ≤ (raw.toNat - m.mid_pulse_ms) * 100 /
      (m.max_pulse_ms - m.mid_pulse_ms) := by
    rw [Nat.le_div_iff_mul_le (by omega)]
    omega
  have hq2 : (raw.toNat - m.mid_pulse_ms) * 100 /
      (m.max_pulse_ms - m.mid_pulse_ms) ≤
      (raw.toNat - m.mid_pulse_ms) * 100 :=
    Nat.div_le_self _ _
  have hq3 : (raw.toNat - m.mid_pulse_ms) * 100 /
      (m.max_pulse_ms - m.mid_pulse_ms) < 2147483648 := by
    omega
  unfold ofU32 U32
  split <;> omega

/-- A closed instance of the amended C10: at the default configuration
a raw reading of 2410 is reported as a value above 100. -/
theorem position_show_unclamped_witness :
    ((motor_c10.mid_pulse_ms < motor_c10.max_pulse_ms) ∧
      (motor_c10.max_pulse_ms < 2^32) ∧
      ((2410:Int) < 2^31) ∧
      (((motor_c10.max_pulse_ms +
        (motor_c10.max_pulse_ms - motor_c10.mid_pulse_ms) / 100 + 1 : Nat) : Int)
        ≤ 2410) ∧
      (((2410:Int) - (motor_c10.mid_pulse_ms : Int)) * 100 < 2^31)) ∧
    100 < position_show 2410 motor_c10 :=
  ⟨by decide,
   position_show_unclamped motor_c10 2410 (by decide) (by decide) (by decide)
     (by decide) (by decide)⟩
